import Mathlib

/-! Verification of the RPiGarageOpener presence-detection core.

Shallow embedding of `src/main.py` (Duz91/RPiGarageOpener): the Bluetooth
presence-detection engine that gates a relay actuator.  Pure decision logic is
embedded as Lean functions; the outcomes of external subprocess invocations and
the wall clock are passed in explicitly.  Timestamps are modelled over an
arbitrary `LinearOrderedRing` (the source compares float seconds only with `-`
and `≤`/`≥`); concrete witnesses instantiate it at `ℤ`.
-/

namespace RPiGarage

/-! ## Configuration constants (src/main.py lines 39-57) -/

/-- Source constant `relayclosetime = 0.5` (line 40). -/
def relayclosetime : ℚ := 1/2

/-- Source constant `active_probe_schedule = [(1.5, 1, 0.3), (3.0, 2, 0.6)]` (lines 52-55):
ordered stages `(timeout, attempts, pause)`. -/
def active_probe_schedule : List (ℚ × ℕ × ℚ) := [(3/2, 1, 3/10), (3, 2, 3/5)]

/-- Source constant `use_hcitool_fallback = True` (line 57). -/
def use_hcitool_fallback : Bool := true

/-! ## External command execution (`_run_command`, lines 194-212)

`subprocess.run` either completes (returning stdout/stderr/returncode) or
raises; `_run_command` catches `TimeoutExpired`, `FileNotFoundError` and any
other exception, returning `None` in each case. -/

/-- A completed external process: captured stdout, stderr and exit status. -/
structure CompletedProc where
  stdout : String
  stderr : String
  returncode : Int
deriving DecidableEq

/-- What a single `subprocess.run` invocation did. -/
inductive CmdOutcome
  | completed (r : CompletedProc)
  | timedOut
  | fileNotFound
  | otherError
deriving DecidableEq

/-- Function `_run_command` (lines 194-212): returns the completed process, or `None`
on timeout, missing binary, or any other exception — it never re-raises. -/
def _run_command : CmdOutcome → Option CompletedProc
  | .completed r => some r
  | .timedOut => none
  | .fileNotFound => none
  | .otherError => none

/-! ## String predicates used by the existence checks -/

/-- Substring occurrence on character lists (Python's `in` on `str`). -/
def containsSub (pat s : List Char) : Bool :=
  if pat.isPrefixOf s then true
  else
    match s with
    | [] => pat.isEmpty
    | _ :: t => containsSub pat t

/-- Python's `str in str` operator. -/
def strContains (s pat : String) : Bool :=
  containsSub pat.data s.data

/-- Python's `str.strip()`: drop whitespace from both ends. -/
def pyStrip (s : String) : String :=
  ⟨((s.data.dropWhile Char.isWhitespace).reverse.dropWhile Char.isWhitespace).reverse⟩

/-! ## The two existence checks of `active_probe` (lines 225-251) -/

/-- Decision taken on the result of `timeout <t> bluetoothctl info <mac>`
(lines 226-235): success iff the command completed with exit status 0 and its
stripped stdout contains `"Connected: yes"` or `"RSSI:"`. -/
def bluetoothctl_info_success (res : Option CompletedProc) : Bool :=
  match res with
  | none => false
  | some r =>
    let stdout := pyStrip r.stdout
    decide (r.returncode = 0) &&
      (strContains stdout "Connected: yes" || strContains stdout "RSSI:")

/-- Decision taken on the result of `timeout <t> hcitool name <mac>`
(lines 246-251): success iff the command completed with non-empty stdout
(Python truthiness of `res.stdout`) and exit status 0. -/
def hcitool_name_success (res : Option CompletedProc) : Bool :=
  match res with
  | none => false
  | some r => !r.stdout.data.isEmpty && decide (r.returncode = 0)

/-- The existence-check success criterion exactly as the specification words
it: a non-empty textual result with a zero exit status within the timeout;
anything else is failure.  Stated for comparison with the source's two
per-tool criteria. -/
def specExistenceSuccess (res : Option CompletedProc) : Bool :=
  match res with
  | none => false
  | some r => !r.stdout.data.isEmpty && decide (r.returncode = 0)

/-! ## `active_probe` (lines 215-258)

The probe walks the configured stage list; per attempt it invokes the
`bluetoothctl info` check and — when `use_hcitool_fallback` and the first check
did not succeed — the `hcitool name` check, each wrapped as
`["timeout", str(timeout), ...]` with the stage's timeout.  It returns `True`
on the first successful check, sleeps `pause` between attempts of a stage and
after a failed non-final stage, and returns `False` once every stage is
exhausted.  The outcomes of the successive subprocess invocations are supplied
by `oracle`, indexed by invocation count. -/

/-- Which external tool an existence-check invocation ran. -/
inductive Tool
  | bluetoothctl
  | hcitool
deriving DecidableEq

/-- One existence-check invocation: the tool and the enforced wall-clock
timeout passed to the `timeout` wrapper in its argv. -/
structure Check where
  tool : Tool
  timeout : ℚ
deriving DecidableEq

/-- Trace of one `active_probe` call: its boolean result, the
existence-check invocations it performed in order, and the `time.sleep`
durations it executed in order. -/
structure ProbeTrace where
  result : Bool
  checks : List Check
  sleeps : List ℚ
deriving DecidableEq

/-- One attempt (loop body, lines 217-251): the `bluetoothctl info` check,
then — if it did not succeed and the fallback is enabled — the `hcitool name`
check.  Returns (success, next invocation index, checks performed). -/
def attemptChecks (fb : Bool) (oracle : ℕ → CmdOutcome) (k : ℕ) (t : ℚ) :
    Bool × ℕ × List Check :=
  if bluetoothctl_info_success (_run_command (oracle k)) then
    (true, k + 1, [⟨.bluetoothctl, t⟩])
  else if fb then
    (hcitool_name_success (_run_command (oracle (k + 1))), k + 2,
      [⟨.bluetoothctl, t⟩, ⟨.hcitool, t⟩])
  else
    (false, k + 1, [⟨.bluetoothctl, t⟩])

/-- The attempt loop of one stage (`for attempt in range(1, attempts + 1)`,
lines 217-254), with `time.sleep(pause)` between attempts (`attempt < attempts`,
line 253).  First argument of the recursion is the number of remaining
attempts. -/
def runStage (fb : Bool) (oracle : ℕ → CmdOutcome) (t pause : ℚ) :
    ℕ → ℕ → Bool × ℕ × List Check × List ℚ
  | 0, k => (false, k, [], [])
  | n + 1, k =>
    match attemptChecks fb oracle k t with
    | (true, k', cs) => (true, k', cs, [])
    | (false, k', cs) =>
      if n = 0 then (false, k', cs, [])
      else
        match runStage fb oracle t pause n k' with
        | (r, k2, cs2, ss) => (r, k2, cs ++ cs2, pause :: ss)

/-- The stage loop (lines 216-256), with `time.sleep(pause)` after a failed
stage that is not the last (`stage < len(active_probe_schedule)`, lines
255-256; `pause` there is the current stage's pause). -/
def runSchedule (fb : Bool) (oracle : ℕ → CmdOutcome) :
    List (ℚ × ℕ × ℚ) → ℕ → Bool × ℕ × List Check × List ℚ
  | [], k => (false, k, [], [])
  | (t, attempts, pause) :: rest, k =>
    match runStage fb oracle t pause attempts k with
    | (true, k', cs, ss) => (true, k', cs, ss)
    | (false, k', cs, ss) =>
      match rest with
      | [] => (false, k', cs, ss)
      | _ :: _ =>
        match runSchedule fb oracle rest k' with
        | (r, k2, cs2, ss2) => (r, k2, cs ++ cs2, ss ++ pause :: ss2)

/-- Function `active_probe` (lines 215-258) as a trace over supplied invocation
outcomes. -/
def active_probe (fb : Bool) (oracle : ℕ → CmdOutcome)
    (sched : List (ℚ × ℕ × ℚ)) : ProbeTrace :=
  match runSchedule fb oracle sched 0 with
  | (r, _, cs, ss) => ⟨r, cs, ss⟩

/-- Total attempts of a schedule (the claim's "for each stage, for each
attempt"). -/
def totalAttempts (sched : List (ℚ × ℕ × ℚ)) : ℕ :=
  (sched.map (fun s => s.2.1)).sum

/-- Checks an exhausted (all-miss) probe performs: per stage, `attempts`
repetitions of the bluetoothctl check plus, with the fallback enabled, the
hcitool check, all with the stage's timeout. -/
def expectedChecks (fb : Bool) : List (ℚ × ℕ × ℚ) → List Check
  | [] => []
  | (t, n, _) :: rest =>
    (List.replicate n
      (if fb then [⟨Tool.bluetoothctl, t⟩, ⟨Tool.hcitool, t⟩]
       else [⟨Tool.bluetoothctl, t⟩])).flatten ++ expectedChecks fb rest

/-- Sleeps an exhausted (all-miss) probe performs: `attempts - 1` intra-stage
pauses per stage, and the current stage's pause after each non-final stage. -/
def expectedSleeps : List (ℚ × ℕ × ℚ) → List ℚ
  | [] => []
  | (_, n, pause) :: rest =>
    List.replicate (n - 1) pause ++
      (match rest with
       | [] => []
       | _ :: _ => pause :: expectedSleeps rest)

/-! ## Registry of the core's external-command interactions (for the timeout
safety claim)

Each entry records one site in `src/main.py` where the core interacts with an
external process, together with the wall-clock timeout enforced there, if
any. -/

/-- Kind of interaction with an external process. -/
inductive CallKind
  | streamRead
  | controlWrite
  | processWait
  | checkInvocation
deriving DecidableEq

/-- One external-command interaction site and its enforced timeout. -/
structure ExternalCall where
  kind : CallKind
  timeoutSeconds : Option ℚ
deriving DecidableEq

/-- The scanner's external interactions (`BluetoothScanner`):
`self.process.stdout.readline()` (line 97) blocks with no timeout;
`self.process.stdin.write(...)` for the scan-control commands `set le on`,
`set duplicate-data true`, `scan on` (lines 143-156) and `scan off`, `quit`
(lines 175-176) carry no timeout; `self.process.wait(timeout=2)` (line 181)
is bounded by 2 seconds. -/
def scanner_calls : List ExternalCall :=
  [⟨.streamRead, none⟩, ⟨.controlWrite, none⟩, ⟨.processWait, some 2⟩]

/-- The prober's existence-check invocations for one schedule: per stage, the
`["timeout", str(timeout), "bluetoothctl", "info", mac]` and
`["timeout", str(timeout), "hcitool", "name", mac]` invocations (lines 225 and
245), each self-bounded by the stage timeout via the `timeout` wrapper. -/
def prober_calls_of (sched : List (ℚ × ℕ × ℚ)) : List ExternalCall :=
  sched.map (fun s => ⟨.checkInvocation, some s.1⟩) ++
    sched.map (fun s => ⟨.checkInvocation, some s.1⟩)

/-- Every external-command interaction site of the core, with the source
configuration's probe schedule. -/
def core_external_calls : List ExternalCall :=
  scanner_calls ++ prober_calls_of active_probe_schedule

/-! ## Passive sightings (`BluetoothScanner.run`, lines 103-105, and the
probe-success write, lines 341-342)

Both sites overwrite the device's last-seen timestamp with the current clock
value: `device_last_seen[mac] = now`. -/

section TimeModel

variable {α : Type} [LinearOrderedRing α]

/-- Operation `recordSighting`: the store update performed at lines 104-105 (and, for a
successful probe, lines 341-342) — an unconditional assignment of the supplied
clock value. -/
def recordSighting (lastSeen t : α) : α := t

/-! ## The presence evaluator (`presence_monitor`, lines 289-400)

Timestamps live in a linearly ordered ring; `0` encodes "never".  The
constants are the source configuration values (lines 48, 51, 56). -/

/-- Source constant `presence_grace_period = 60` (line 48). -/
def presence_grace_period : α := 60

/-- Source constant `active_probe_trigger = 30` (line 51). -/
def active_probe_trigger : α := 30

/-- Source constant `active_probe_cooldown = 15` (line 56). -/
def active_probe_cooldown : α := 15

/-- Per-device store state read at the start of a cycle (lines 300-301):
`device_last_seen[mac]` and `device_last_probe[mac]`, `0` meaning never. -/
structure DeviceObs (α : Type) where
  lastSeen : α
  lastProbe : α
deriving DecidableEq

/-- Line 307: `present = bool(last_seen and delta <= presence_grace_period)`
with `delta = now - last_seen if last_seen else inf` (line 302); a zero
`last_seen` short-circuits to absent. -/
def passivePresent (now : α) (obs : DeviceObs α) : Bool :=
  decide (obs.lastSeen ≠ 0) &&
    decide (now - obs.lastSeen ≤ presence_grace_period)

/-- Lines 314-320: `trigger_probe = (last_seen == 0.0 or delta >=
active_probe_trigger) and time_since_probe >= active_probe_cooldown`, where a
zero `last_probe` makes `time_since_probe` infinite (hence eligible). -/
def eligibleForProbe (now : α) (obs : DeviceObs α) : Bool :=
  (decide (obs.lastSeen = 0) || decide (now - obs.lastSeen ≥ active_probe_trigger)) &&
    (decide (obs.lastProbe = 0) || decide (now - obs.lastProbe ≥ active_probe_cooldown))

/-- Probe annotation of a device in a cycle (the strings `"skipped"`,
`"success"`, `"fail"` of lines 308 and 335). -/
inductive ProbeStatus
  | skipped
  | success
  | fail
deriving DecidableEq

/-- Outcome of one device's evaluation in a cycle: the verdict published into
`device_states`, the updated store timestamps, and the probe annotation. -/
structure DeviceResult (α : Type) where
  present : Bool
  lastSeen : α
  lastProbe : α
  probe : ProbeStatus
deriving DecidableEq

/-- One device's evaluation in a cycle (lines 297-344): a passively present
device is marked present and skipped; otherwise, if eligible, the probe runs
(writing `device_last_probe = probe_start` first, line 331, and on success
`device_last_seen = probe_time`, line 342); otherwise nothing changes and the
passive verdict (absent) stands.  `probeSuccess` is the result the probe
would return; `probeStart` and `probeTime` are the clock values read at lines
329 and 337. -/
def evalDevice (now : α) (obs : DeviceObs α) (probeSuccess : Bool)
    (probeStart probeTime : α) : DeviceResult α :=
  if passivePresent now obs then
    ⟨true, obs.lastSeen, obs.lastProbe, .skipped⟩
  else if eligibleForProbe now obs then
    if probeSuccess then ⟨true, probeTime, probeStart, .success⟩
    else ⟨false, obs.lastSeen, probeStart, .fail⟩
  else
    ⟨false, obs.lastSeen, obs.lastProbe, .skipped⟩

/-- Input of one device to a cycle: its address, its store observation, and
the probe data used if a probe is triggered. -/
structure DeviceInput (α : Type) where
  mac : String
  obs : DeviceObs α
  probeSuccess : Bool
  probeStart : α
  probeTime : α
deriving DecidableEq

/-- What a completed cycle publishes under the lock (lines 346-351):
`device_states[mac] = info["present"]` for every device, and
`devicepresent = bool(present_macs)` where `present_macs` collects the
addresses whose `info["present"]` is set (line 347). -/
structure CycleResult (α : Type) where
  states : List (String × Bool)
  globalFlag : Bool
deriving DecidableEq

/-- One full evaluation pass over the device list followed by the publication
step (lines 297-351). -/
def runCycle (now : α) (devs : List (DeviceInput α)) : CycleResult α :=
  let infos := devs.map
    (fun d => (d.mac, evalDevice now d.obs d.probeSuccess d.probeStart d.probeTime))
  let present_macs := (infos.filter (fun p => p.2.present)).map (fun p => p.1)
  { states := infos.map (fun p => (p.1, p.2.present)),
    globalFlag := !present_macs.isEmpty }

end TimeModel

/-! ## Transition signalling (lines 382-389) -/

/-- The two audible transition signals: `beep(presencebeepcount, ...)` on an
absent-to-present flip and `beep(absencebeepcount, ...)` on a
present-to-absent flip. -/
inductive Signal
  | presence
  | absence
deriving DecidableEq

/-- Lines 382-389: if `current_presence != previous_presence` (where
`previous_presence` starts as `None`), emit the one matching signal call and
set `previous_presence = current_presence`; otherwise emit nothing.  Returns
the signal calls of this cycle and the updated `previous_presence`. -/
def emitTransition (current : Bool) (previous : Option Bool) :
    List Signal × Option Bool :=
  if previous ≠ some current then
    ((if current then [Signal.presence] else [Signal.absence]), some current)
  else
    ([], previous)

/-! ## Actuation handlers -/

/-- Primitive actions a handler performs on the relay. -/
inductive GpioAction
  | relayOn
  | relayOff
  | sleepFor (d : ℚ)
deriving DecidableEq

/-- Handler `button_pressed` (lines 269-275): read `devicepresent` under the lock;
pulse the relay for `relayclosetime` only if it was set. -/
def button_pressed (devicepresent : Bool) : List GpioAction :=
  if devicepresent then
    [.relayOn, .sleepFor relayclosetime, .relayOff]
  else []

/-- The `/activaterelay` Flask route (lines 415-420): pulse the relay for
`relayclosetime` unconditionally.  The handler takes the published global
flag as a parameter only to show it never consults it. -/
def activaterelay (_devicepresent : Bool) : List GpioAction :=
  [.relayOn, .sleepFor relayclosetime, .relayOff]

/-- Whether a handler's action list pulses the relay. -/
def pulsesRelay (acts : List GpioAction) : Bool :=
  acts.any (fun a => a == GpioAction.relayOn)

/-! ## Consecutive-failure counter -/

/-- Modelled from the spec: `src/main.py` defines no `consecutiveFailures`
counter and no `updateFailures` operation (its store holds only
`device_last_seen` and `device_last_probe`); this follows §4.1 of the
specification: reset to 0 on success, else increment capped at
`maxFailures + 1`. -/
def updateFailures (maxFailures c : ℤ) (success : Bool) : ℤ :=
  if success then 0 else min (c + 1) (maxFailures + 1)

/-- The failure counter over a whole sequence of probe outcomes, started at
its initial value 0. -/
def runFailures (maxFailures : ℤ) (outcomes : List Bool) : ℤ :=
  outcomes.foldl (fun c s => updateFailures maxFailures c s) 0

/-! ## Theorems -/

section TimeTheorems

variable {α : Type} [LinearOrderedRing α]

lemma global_or_aux (l : List (String × DeviceResult α)) :
    (!(((l.filter (fun p => p.2.present)).map (fun p => p.1)).isEmpty)) =
      (l.map (fun p => (p.1, p.2.present))).any (fun p => p.2) := by
  induction l with
  | nil => rfl
  | cons x xs ih =>
    by_cases h : x.2.present = true <;>
      simp [List.filter_cons, h, ← ih]

/-- C2: after every completed evaluation cycle, the published global presence
flag (`devicepresent`, line 350) equals the logical OR of the per-device
present verdicts published into `device_states` in that cycle (lines 348-349),
for every clock value and every set of per-device observations and probe
data. -/
theorem C2_global_is_or_of_present (now : α) (devs : List (DeviceInput α)) :
    (runCycle now devs).globalFlag =
      ((runCycle now devs).states).any (fun p => p.2) := by
  exact global_or_aux
    (devs.map (fun d => (d.mac, evalDevice now d.obs d.probeSuccess d.probeStart d.probeTime)))

/-- C5 counterexample: a device last seen at time 1 and last probed at time 95,
evaluated at time 100, is neither passively present (delta 99 exceeds the
60-second grace period) nor eligible for a probe (5 seconds since the last
probe is below the 15-second cooldown), yet `evalDevice` marks it absent — so
a previous Present verdict is *not* carried forward into this cycle's
result. -/
theorem C5_counterexample :
    (passivePresent (100 : ℤ) ⟨1, 95⟩ = false ∧
      eligibleForProbe (100 : ℤ) ⟨1, 95⟩ = false) ∧
    (evalDevice (100 : ℤ) ⟨1, 95⟩ true 100 100).present ≠ true := by
  decide

/-- C5 amended: for every device in a cycle that is not passively present and
not eligible for an active probe, the cycle publishes the verdict Absent for
it (the freshly computed passive verdict), regardless of any previous verdict;
its stored timestamps are unchanged and its probe annotation is `skipped`.
The previous verdict is carried forward only in the sense that an Absent
verdict stays Absent. -/
theorem C5_amended_skip_marks_absent (now : α) (obs : DeviceObs α)
    (probeSuccess : Bool) (probeStart probeTime : α)
    (h1 : passivePresent now obs = false)
    (h2 : eligibleForProbe now obs = false) :
    evalDevice now obs probeSuccess probeStart probeTime =
      ⟨false, obs.lastSeen, obs.lastProbe, .skipped⟩ := by
  simp [evalDevice, h1, h2]

/-- C7 amended: `recordSighting` assigns the supplied clock value
unconditionally; whenever that value is at least the stored one — as holds
when successive writes take their timestamps from a non-decreasing clock —
the assignment coincides with `max(lastSeenAt, t)` and `lastSeenAt` never
decreases. -/
theorem C7_amended_record_sighting_monotone (lastSeen t : α)
    (h : lastSeen ≤ t) :
    recordSighting lastSeen t = max lastSeen t ∧
      lastSeen ≤ recordSighting lastSeen t := by
  exact ⟨(max_eq_right h).symm, h⟩

end TimeTheorems

/-- C5 witness: the amended statement evaluated at the counterexample state
over `ℤ`. -/
theorem C5_witness :
    (passivePresent (100 : ℤ) ⟨1, 95⟩ = false ∧
      eligibleForProbe (100 : ℤ) ⟨1, 95⟩ = false) ∧
    evalDevice (100 : ℤ) ⟨1, 95⟩ true 100 100 =
      ⟨false, 1, 95, .skipped⟩ :=
  ⟨⟨by decide, by decide⟩,
    C5_amended_skip_marks_absent 100 ⟨1, 95⟩ true 100 100 (by decide) (by decide)⟩

/-- C7 counterexample: `recordSighting` is a plain assignment, not a `max`:
recording a sighting at time 3 over a stored last-seen of 5 yields 3, not
`max 5 3 = 5`. -/
theorem C7_counterexample :
    recordSighting (5 : ℤ) 3 ≠ max 5 3 := by
  decide

/-- C7 witness: the amended statement evaluated at stored time 1 and sighting
time 2 over `ℤ`. -/
theorem C7_witness :
    (1 : ℤ) ≤ 2 ∧
      (recordSighting (1 : ℤ) 2 = max 1 2 ∧ (1 : ℤ) ≤ recordSighting (1 : ℤ) 2) :=
  ⟨by decide, C7_amended_record_sighting_monotone 1 2 (by decide)⟩

/-- C3: in every cycle that has a previously published global value, exactly
one transition signal is emitted iff the freshly computed global flag differs
from it — the presence signal on a false-to-true flip, the absence signal on a
true-to-false flip — and no signal is emitted when the flag is unchanged.
(On the very first cycle `previous_presence` is still `None` and the
initial state is announced with one signal; the claim's "previous cycle's
published value" does not exist there.) -/
theorem C3_transition_signal_iff_change (prev current : Bool) :
    (emitTransition current (some prev)).1 =
      (if current = prev then []
       else [if current then Signal.presence else Signal.absence]) ∧
    (emitTransition current (some prev)).1.length =
      (if current = prev then 0 else 1) ∧
    (emitTransition current (some prev)).2 = some current := by
  cases prev <;> cases current <;> simp [emitTransition]

/-- C4: the manual-trigger handler `button_pressed` pulses the relay iff the
most recently published global presence flag is set; with the flag cleared it
performs no action at all. -/
theorem C4_button_gated_by_presence (g : Bool) :
    pulsesRelay (button_pressed g) = g ∧ button_pressed false = [] := by
  cases g <;> exact ⟨rfl, rfl⟩

/-- C10: the `/activaterelay` route pulses the relay for `relayclosetime`
unconditionally — its actions are the same whatever the published global flag
is, and in particular it pulses when the flag is false, where the manual
button handler (which enforces the presence gate) does nothing. -/
theorem C10_activaterelay_bypasses_gate (g g' : Bool) :
    activaterelay g = [GpioAction.relayOn, .sleepFor relayclosetime, .relayOff] ∧
    activaterelay g = activaterelay g' ∧
    pulsesRelay (activaterelay false) = true ∧
    pulsesRelay (button_pressed false) = false :=
  ⟨rfl, rfl, rfl, rfl⟩

lemma runFailures_aux (mf : ℤ) (h : 0 ≤ mf) (outcomes : List Bool) :
    ∀ c : ℤ, 0 ≤ c → c ≤ mf + 1 →
      0 ≤ outcomes.foldl (fun c s => updateFailures mf c s) c ∧
        outcomes.foldl (fun c s => updateFailures mf c s) c ≤ mf + 1 := by
  induction outcomes with
  | nil => exact fun c hc hc' => ⟨hc, hc'⟩
  | cons s rest ih =>
    intro c hc hc'
    simp only [List.foldl_cons]
    apply ih
    · cases s <;> simp [updateFailures] <;> omega
    · cases s <;> simp [updateFailures] <;> omega

/-- C9: the consecutive-failure counter of §4.1 — reset to 0 on success,
incremented with a cap of `maxFailures + 1` on failure — stays non-negative
and never exceeds `maxFailures + 1` over every sequence of probe outcomes. -/
theorem C9_failures_invariant (mf : ℤ) (h : 0 ≤ mf) (outcomes : List Bool) :
    (∀ c : ℤ, updateFailures mf c true = 0) ∧
    0 ≤ runFailures mf outcomes ∧ runFailures mf outcomes ≤ mf + 1 := by
  refine ⟨fun c => rfl, ?_⟩
  simpa [runFailures] using
    runFailures_aux mf h outcomes 0 le_rfl (by omega)

/-- C9 witness: the invariant evaluated at `maxFailures = 3` over a concrete
outcome sequence. -/
theorem C9_witness :
    (0 : ℤ) ≤ 3 ∧
      ((∀ c : ℤ, updateFailures 3 c true = 0) ∧
        0 ≤ runFailures 3 [false, false, true, false] ∧
          runFailures 3 [false, false, true, false] ≤ 3 + 1) :=
  ⟨by decide, C9_failures_invariant 3 (by decide) [false, false, true, false]⟩

/-- C6 counterexample: `bluetoothctl info` completing with exit status 0 and
the non-empty output `"Connected: no"` satisfies the claim's success criterion
(non-empty textual result, zero exit status) but the code reports failure,
because the output contains neither `"Connected: yes"` nor `"RSSI:"`. -/
theorem C6_counterexample :
    specExistenceSuccess
        (_run_command (.completed ⟨"Connected: no", "", 0⟩)) = true ∧
    bluetoothctl_info_success
        (_run_command (.completed ⟨"Connected: no", "", 0⟩)) = false := by
  decide

/-- C6 amended: a single existence-check invocation never surfaces an error —
timeout, missing binary and any other exception all collapse to the boolean
failure result — and succeeds exactly when the command completed with a zero
exit status and, for the `hcitool name` check, non-empty output (precisely the
spec's criterion), while the `bluetoothctl info` check additionally requires
its stripped output to contain `"Connected: yes"` or `"RSSI:"`. -/
theorem C6_amended_success_criteria (o : CmdOutcome) :
    (hcitool_name_success (_run_command o) =
      specExistenceSuccess (_run_command o)) ∧
    (bluetoothctl_info_success (_run_command o) = true ↔
      ∃ r, o = CmdOutcome.completed r ∧ r.returncode = 0 ∧
        (strContains (pyStrip r.stdout) "Connected: yes" = true ∨
         strContains (pyStrip r.stdout) "RSSI:" = true)) ∧
    bluetoothctl_info_success (_run_command CmdOutcome.timedOut) = false ∧
    hcitool_name_success (_run_command CmdOutcome.timedOut) = false ∧
    bluetoothctl_info_success (_run_command CmdOutcome.fileNotFound) = false ∧
    hcitool_name_success (_run_command CmdOutcome.fileNotFound) = false ∧
    bluetoothctl_info_success (_run_command CmdOutcome.otherError) = false ∧
    hcitool_name_success (_run_command CmdOutcome.otherError) = false := by
  refine ⟨rfl, ?_, rfl, rfl, rfl, rfl, rfl, rfl⟩
  cases o with
  | completed r =>
    simp [bluetoothctl_info_success, _run_command, Bool.and_eq_true,
      Bool.or_eq_true, decide_eq_true_iff]
  | timedOut => simp [bluetoothctl_info_success, _run_command]
  | fileNotFound => simp [bluetoothctl_info_success, _run_command]
  | otherError => simp [bluetoothctl_info_success, _run_command]

lemma attemptChecks_miss (fb : Bool) (oracle : ℕ → CmdOutcome)
    (hmiss : ∀ i, bluetoothctl_info_success (_run_command (oracle i)) = false ∧
      hcitool_name_success (_run_command (oracle i)) = false) (k : ℕ) (t : ℚ) :
    attemptChecks fb oracle k t =
      (false, (if fb then k + 2 else k + 1),
        if fb then [⟨Tool.bluetoothctl, t⟩, ⟨Tool.hcitool, t⟩]
        else [⟨Tool.bluetoothctl, t⟩]) := by
  cases fb <;> simp [attemptChecks, (hmiss k).1, (hmiss (k + 1)).2]

lemma runStage_miss (fb : Bool) (oracle : ℕ → CmdOutcome)
    (hmiss : ∀ i, bluetoothctl_info_success (_run_command (oracle i)) = false ∧
      hcitool_name_success (_run_command (oracle i)) = false) (t pause : ℚ) :
    ∀ (n k : ℕ), ∃ k', runStage fb oracle t pause n k =
      (false, k',
        (List.replicate n (if fb then [⟨Tool.bluetoothctl, t⟩, ⟨Tool.hcitool, t⟩]
          else [⟨Tool.bluetoothctl, t⟩])).flatten,
        List.replicate (n - 1) pause) := by
  intro n
  induction n with
  | zero => intro k; exact ⟨k, by simp [runStage]⟩
  | succ n ih =>
    intro k
    by_cases hn : n = 0
    · subst hn
      refine ⟨if fb then k + 2 else k + 1, ?_⟩
      simp [runStage, attemptChecks_miss fb oracle hmiss k t]
    · obtain ⟨k2, h2⟩ := ih (if fb then k + 2 else k + 1)
      refine ⟨k2, ?_⟩
      have hrep : List.replicate n pause = pause :: List.replicate (n - 1) pause := by
        rcases Nat.exists_eq_succ_of_ne_zero hn with ⟨m, rfl⟩
        rw [List.replicate_succ, Nat.succ_sub_one]
      simp [runStage, attemptChecks_miss fb oracle hmiss k t, hn, h2,
        List.replicate_succ, hrep]

lemma runSchedule_miss (fb : Bool) (oracle : ℕ → CmdOutcome)
    (hmiss : ∀ i, bluetoothctl_info_success (_run_command (oracle i)) = false ∧
      hcitool_name_success (_run_command (oracle i)) = false) :
    ∀ (sched : List (ℚ × ℕ × ℚ)) (k : ℕ), ∃ k', runSchedule fb oracle sched k =
      (false, k', expectedChecks fb sched, expectedSleeps sched) := by
  intro sched
  induction sched with
  | nil => intro k; exact ⟨k, rfl⟩
  | cons s rest ih =>
    obtain ⟨t, n, pause⟩ := s
    intro k
    obtain ⟨k1, h1⟩ := runStage_miss fb oracle hmiss t pause n k
    cases rest with
    | nil =>
      refine ⟨k1, ?_⟩
      rw [runSchedule.eq_2, h1]
      simp [expectedChecks, expectedSleeps]
    | cons s2 rest2 =>
      obtain ⟨k2, h2⟩ := ih k1
      refine ⟨k2, ?_⟩
      rw [runSchedule.eq_2, h1]
      simp [h2, expectedChecks, expectedSleeps]

/-- C8 counterexample: with the source configuration (`use_hcitool_fallback =
True`, schedule `[(1.5, 1, 0.3), (3.0, 2, 0.6)]`) and every invocation timing
out, the probe performs 6 existence checks — two per attempt — not one per
attempt as the claim states (the schedule has 3 attempts in total). -/
theorem C8_counterexample :
    (active_probe use_hcitool_fallback (fun _ => CmdOutcome.timedOut)
        active_probe_schedule).result = false ∧
    (active_probe use_hcitool_fallback (fun _ => CmdOutcome.timedOut)
        active_probe_schedule).checks.length = 6 ∧
    totalAttempts active_probe_schedule = 3 ∧
    (active_probe use_hcitool_fallback (fun _ => CmdOutcome.timedOut)
        active_probe_schedule).checks.length ≠ totalAttempts active_probe_schedule := by
  decide

/-- C8 amended: `probe(device)` walks the configured ordered stage list; per
attempt it runs one `bluetoothctl info` existence check with the stage's
timeout and — when the hcitool fallback is enabled and the first check did
not succeed — one `hcitool name` check with the same timeout (up to two
checks per attempt, not one); it returns true immediately on the first
successful check, sleeps `pause` between retries within a stage and the
current stage's pause between stages, and returns false exactly when all
attempts of all stages are exhausted without success. -/
theorem C8_amended_probe_schedule (fb : Bool) (oracle : ℕ → CmdOutcome)
    (sched : List (ℚ × ℕ × ℚ)) :
    ((∀ i, bluetoothctl_info_success (_run_command (oracle i)) = false ∧
        hcitool_name_success (_run_command (oracle i)) = false) →
      active_probe fb oracle sched =
        ⟨false, expectedChecks fb sched, expectedSleeps sched⟩) ∧
    (∀ (t : ℚ) (n : ℕ) (pause : ℚ) (rest : List (ℚ × ℕ × ℚ)),
      bluetoothctl_info_success (_run_command (oracle 0)) = true →
        active_probe fb oracle ((t, n + 1, pause) :: rest) =
          ⟨true, [⟨Tool.bluetoothctl, t⟩], []⟩) := by
  constructor
  · intro hmiss
    obtain ⟨k, h⟩ := runSchedule_miss fb oracle hmiss sched 0
    simp [active_probe, h]
  · intro t n pause rest hsucc
    simp [active_probe, runSchedule, runStage, attemptChecks, hsucc]

/-- C8 witness: the amended statement at the source configuration with every
invocation timing out. -/
theorem C8_witness :
    (∀ i : ℕ, bluetoothctl_info_success
        (_run_command ((fun _ : ℕ => CmdOutcome.timedOut) i)) = false ∧
      hcitool_name_success
        (_run_command ((fun _ : ℕ => CmdOutcome.timedOut) i)) = false) ∧
    active_probe use_hcitool_fallback (fun _ : ℕ => CmdOutcome.timedOut)
        active_probe_schedule =
      ⟨false, expectedChecks use_hcitool_fallback active_probe_schedule,
        expectedSleeps active_probe_schedule⟩ :=
  ⟨fun _ => ⟨rfl, rfl⟩,
    (C8_amended_probe_schedule use_hcitool_fallback
        (fun _ : ℕ => CmdOutcome.timedOut) active_probe_schedule).1
      (fun _ => ⟨rfl, rfl⟩)⟩

/-- C1 counterexample: not every external-command interaction of the core
carries an enforced timeout — the scanner's blocking `readline()` on the
discovery process's stdout (line 97) and its scan-control stdin writes carry
none. -/
theorem C1_counterexample :
    core_external_calls.all (fun c => c.timeoutSeconds.isSome) = false := by
  rfl

lemma attemptChecks_timeout (fb : Bool) (oracle : ℕ → CmdOutcome) (k : ℕ)
    (t : ℚ) : ∀ c ∈ (attemptChecks fb oracle k t).2.2, c.timeout = t := by
  intro c hc
  unfold attemptChecks at hc
  split at hc
  · simp at hc; subst hc; rfl
  · split at hc
    · simp at hc
      rcases hc with h | h <;> (subst h; rfl)
    · simp at hc; subst hc; rfl

lemma runStage_checks_timeout (fb : Bool) (oracle : ℕ → CmdOutcome)
    (t pause : ℚ) :
    ∀ (n k : ℕ), ∀ c ∈ (runStage fb oracle t pause n k).2.2.1, c.timeout = t := by
  intro n
  induction n with
  | zero => intro k c hc; simp [runStage] at hc
  | succ n ih =>
    intro k c hc
    rw [runStage] at hc
    rcases hm : attemptChecks fb oracle k t with ⟨b, k', cs⟩
    rw [hm] at hc
    have hcs : ∀ c ∈ cs, c.timeout = t := by
      intro c hc'
      have h := attemptChecks_timeout fb oracle k t c
      rw [hm] at h
      exact h hc'
    cases b
    · by_cases hn : n = 0
      · subst hn
        simp at hc
        exact hcs c hc
      · rcases hr : runStage fb oracle t pause n k' with ⟨r, k2, cs2, ss⟩
        simp [hn, hr] at hc
        rcases hc with h | h
        · exact hcs c h
        · have h' := ih k' c
          rw [hr] at h'
          exact h' h
    · simp at hc
      exact hcs c hc

lemma runSchedule_checks_timeouts (fb : Bool) (oracle : ℕ → CmdOutcome) :
    ∀ (sched : List (ℚ × ℕ × ℚ)) (k : ℕ),
      ∀ c ∈ (runSchedule fb oracle sched k).2.2.1,
        ∃ s ∈ sched, c.timeout = s.1 := by
  intro sched
  induction sched with
  | nil => intro k c hc; simp [runSchedule] at hc
  | cons s rest ih =>
    obtain ⟨t, n, pause⟩ := s
    intro k c hc
    rw [runSchedule] at hc
    rcases hr : runStage fb oracle t pause n k with ⟨b, k', cs, ss⟩
    rw [hr] at hc
    have hcs : ∀ c ∈ cs, c.timeout = t := by
      intro c h
      have h' := runStage_checks_timeout fb oracle t pause n k c
      rw [hr] at h'
      exact h' h
    cases b
    · cases rest with
      | nil =>
        simp at hc
        exact ⟨(t, n, pause), by simp, hcs c hc⟩
      | cons s2 rest2 =>
        rcases h2 : runSchedule fb oracle (s2 :: rest2) k' with ⟨r, k2, cs2, ss2⟩
        simp [h2] at hc
        rcases hc with h | h
        · exact ⟨(t, n, pause), by simp, hcs c h⟩
        · obtain ⟨s', hs', hts⟩ := by
            have h' := ih k' c
            rw [h2] at h'
            exact h' h
          exact ⟨s', List.mem_cons_of_mem _ hs', hts⟩
    · simp at hc
      exact ⟨(t, n, pause), by simp, hcs c hc⟩

/-- C1 amended: each existence-check invocation of the active prober carries
an enforced finite timeout — every check in every probe trace runs under one
of the configured stage timeouts, via the `timeout` wrapper in its argv — and
the scanner's shutdown wait is bounded; but the scanner's scan-control writes
and its stream reads carry no timeout (they run in the scanner worker, so the
presence evaluator's own external calls all remain bounded). -/
theorem C1_amended_prober_timeouts_enforced :
    (∃ c ∈ scanner_calls, c.timeoutSeconds = none) ∧
    (∀ (fb : Bool) (oracle : ℕ → CmdOutcome) (sched : List (ℚ × ℕ × ℚ)),
      ((active_probe fb oracle sched).checks).Forall
        (fun c => ∃ s ∈ sched, c.timeout = s.1)) := by
  refine ⟨⟨⟨CallKind.streamRead, none⟩, List.Mem.head _, rfl⟩, ?_⟩
  intro fb oracle sched
  rw [List.forall_iff_forall_mem]
  intro c hc
  unfold active_probe at hc
  rcases h : runSchedule fb oracle sched 0 with ⟨r, k, cs, ss⟩
  rw [h] at hc
  have h' := runSchedule_checks_timeouts fb oracle sched 0 c
  rw [h] at h'
  exact h' hc

end RPiGarage
